import Mathlib

/-!
Shallow embedding of `src/twisted/trial/_asynctest.py` (class `TestCase`):
the asynchronous test-case execution engine of trial.  The embedding covers
the phase sequencer `_deferSetUp` / `_deferTearDown` / `_deferRunCleanups` /
`_ebDeferTestMethod` / `_cleanUp`, the phase runner `_run` with its timeout
guard `onTimeout` and its cancel continuation, the timeout resolution
`getTimeout`, and the blocking bridge `_wait`.

Python exceptions are modelled by the inductive `Exc`; a phase's behaviour
is `Except Exc Unit` (it either returns or raises).  Calls on the result
sink and phase-execution markers are recorded in a single trace of `Event`s,
in program order.  External collaborators (`util._Janitor`, the log
observer, `util.acquireAttribute`, the reactor's `DelayedCall`) are not in
`src/`; where one of them matters it is modelled from the spec and noted in
the doc comment of the definition.
-/

namespace TrialAsync

/-- Exception kinds relevant to `_asynctest.py`.
`skipTest` is `twisted.trial._synctest.SkipTest`, `failTest` stands for the
test's `failureException` / `FailTest` (assertion-style failures, see
`f.check(self.failureException, FailTest)` in `_ebDeferTestMethod`),
`timeoutError` is `twisted.internet.defer.TimeoutError`, `typeError` is the
`TypeError` raised by `_run` for generator functions, and `other` covers any
remaining exception. -/
inductive Exc where
  | skipTest (reason : String)
  | keyboardInterrupt
  | failTest
  | timeoutError
  | typeError
  | other (msg : String)
deriving DecidableEq, Repr

/-- Python's `except Exception` does not catch `KeyboardInterrupt` (which
derives from `BaseException` only); this predicate says whether an `Exc`
is caught by `except Exception`. -/
def Exc.isException : Exc → Bool
  | Exc.keyboardInterrupt => false
  | _ => true

/-- One entry of the execution trace: a call on the result sink
(`addSuccess`, `addFailure`, `addError`, `addSkip`, `addExpectedFailure`,
`addUnexpectedSuccess`, `stop`) or a marker that a phase was executed
(`ranSetUp`, `ranBody`, `ranCleanup i`, `ranTearDown`, `drainStarted`). -/
inductive Event where
  | addSuccess
  | addFailure (f : Exc)
  | addError (f : Exc)
  | addSkip (reason : String)
  | addExpectedFailure (f : Exc)
  | addUnexpectedSuccess
  | stopCalled
  | ranSetUp
  | ranBody
  | ranCleanup (i : Nat)
  | ranTearDown
  | drainStarted
deriving DecidableEq, Repr

/-- Is the event an `addError` call (with any failure)? -/
def Event.isAddError : Event → Bool
  | Event.addError _ => true
  | _ => false

/-- Is the event an `addSkip` call (with any reason)? -/
def Event.isAddSkip : Event → Bool
  | Event.addSkip _ => true
  | _ => false

/-- Is the event an `addFailure` call (with any failure)? -/
def Event.isAddFailure : Event → Bool
  | Event.addFailure _ => true
  | _ => false

/-- Is the event a `ranCleanup` marker (for any cleanup)? -/
def Event.isRanCleanup : Event → Bool
  | Event.ranCleanup _ => true
  | _ => false

/-- A registered cleanup action: its registration index and its behaviour
when run (`Except.ok ()` if it returns, `Except.error e` if it raises `e`).
`TestCase.addCleanup` appends to `self._cleanups`; the list is in
registration order, so `self._cleanups.pop()` takes the last element. -/
structure Cleanup where
  id : Nat
  outcome : Except Exc Unit
deriving Repr

/-- The failure raised by a cleanup, if any. -/
def Cleanup.failure (c : Cleanup) : Option Exc :=
  match c.outcome with
  | Except.ok _ => none
  | Except.error e => some e

/-- Whether running the cleanup raises nothing that escapes the
`except Exception` handler of `_deferRunCleanups`: it returns, or raises an
exception of class `Exception`. -/
def Cleanup.catchable (c : Cleanup) : Bool :=
  match c.outcome with
  | Except.ok _ => true
  | Except.error e => e.isException

/-- The `while len(self._cleanups) > 0: ... self._cleanups.pop()` loop of
`_deferRunCleanups`, run on the cleanups already listed in pop order (the
caller passes the reversed stack).  Each popped cleanup is run through
`self._run`; a raised `Exception` is appended to the local `failures` list
and the loop continues, while an exception not caught by `except Exception`
(such as `KeyboardInterrupt`) propagates out of the loop at once.  Returns
the run markers in execution order, the collected failures in collection
order, and the propagated exception if one escaped. -/
def drainGo : List Cleanup → List Event × List Exc × Option Exc
  | [] => ([], [], none)
  | c :: rest =>
    match c.outcome with
    | Except.ok _ =>
      let t := drainGo rest
      (Event.ranCleanup c.id :: t.1, t.2.1, t.2.2)
    | Except.error e =>
      if e.isException then
        let t := drainGo rest
        (Event.ranCleanup c.id :: t.1, e :: t.2.1, t.2.2)
      else
        ([Event.ranCleanup c.id], [], some e)

/-- `TestCase._deferRunCleanups`: drain the cleanup stack (last registered
first, via `list.pop()`), collecting failures without stopping, then report
each collected failure with `result.addError` and set `self._passed = False`
when there was at least one.  If an exception escaped the loop (it was not
an `Exception`), the trailing `for f in failures: result.addError(...)` loop
is never reached, so no collected failure is reported and `_passed` is not
touched here.  Returns the trace, whether `_passed` was set to `False`, and
the propagated exception if any. -/
def deferRunCleanups (cleanups : List Cleanup) : List Event × Bool × Option Exc :=
  let t := drainGo cleanups.reverse
  match t.2.2 with
  | some e => (Event.drainStarted :: t.1, false, some e)
  | none =>
    (Event.drainStarted :: (t.1 ++ t.2.1.map Event.addError), !t.2.1.isEmpty, none)

/-- Does the todo annotation exist and expect the failure `f`?  Models
`todo is not None and todo.expected(f)` where `todo = self.getTodo()`. -/
def todoExpects (todo : Option (Exc → Bool)) (f : Exc) : Bool :=
  match todo with
  | some expected => expected f
  | none => false

/-- `TestCase._ebDeferTestMethod`: classify a failure raised by the test
body.  In source order: a failure the todo annotation expects is reported
with `addExpectedFailure`; an assertion-style failure
(`self.failureException` / `FailTest`) with `addFailure`;
`KeyboardInterrupt` with `addError` followed by `result.stop()`; `SkipTest`
with `addSkip` (the reason extracted by `_getSkipReason`, modelled as the
string carried by the exception); anything else with `addError`. -/
def ebDeferTestMethod (todo : Option (Exc → Bool)) (f : Exc) : List Event :=
  if todoExpects todo f then
    [Event.addExpectedFailure f]
  else
    match f with
    | Exc.failTest => [Event.addFailure Exc.failTest]
    | Exc.keyboardInterrupt => [Event.addError Exc.keyboardInterrupt, Event.stopCalled]
    | Exc.skipTest r => [Event.addSkip r]
    | _ => [Event.addError f]

/-- `TestCase._deferTearDown`: run `tearDown`; `KeyboardInterrupt` is
reported with `addError` followed by `result.stop()` and sets
`self._passed = False`; any other raised exception is reported with
`addError` and sets `self._passed = False`.  Returns the trace and whether
`_passed` was set to `False`. -/
def deferTearDown (tearDown : Except Exc Unit) : List Event × Bool :=
  match tearDown with
  | Except.ok _ => ([Event.ranTearDown], false)
  | Except.error Exc.keyboardInterrupt =>
    ([Event.ranTearDown, Event.addError Exc.keyboardInterrupt, Event.stopCalled], true)
  | Except.error e => ([Event.ranTearDown, Event.addError e], true)

/-- A test case as `_deferSetUp` sees it: the behaviour of `setUp`, the
test body and `tearDown` when run (return or raise), the contents of the
cleanup stack `self._cleanups` at drain time (in registration order), and
the todo annotation (`self.getTodo()`: `none`, or the predicate
`todo.expected`). -/
structure TestSpec where
  setUp : Except Exc Unit
  body : Except Exc Unit
  tearDown : Except Exc Unit
  cleanups : List Cleanup
  todo : Option (Exc → Bool)

/-- The classification of the test body's outcome performed inside
`_deferSetUp` (lines 157-167) together with `_ebDeferTestMethod`: if the
body returned and a todo annotation is present, report
`addUnexpectedSuccess`; if it returned and there is no todo, set
`self._passed = True`; if it raised, classify via `_ebDeferTestMethod`.
Returns the sink events and whether `_passed` was set to `True`. -/
def classifyBody (todo : Option (Exc → Bool)) (body : Except Exc Unit) :
    List Event × Bool :=
  match body with
  | Except.ok _ =>
    match todo with
    | some _ => ([Event.addUnexpectedSuccess], false)
    | none => ([], true)
  | Except.error f => (ebDeferTestMethod todo f, false)

/-- `TestCase._deferSetUp`: run `setUp`; on `SkipTest` report `addSkip` and
drain cleanups; on `KeyboardInterrupt` report `addError`, call
`result.stop()` and drain cleanups; on any other exception report
`addError` and drain cleanups; in all three cases return without running
the body or `tearDown`.  Otherwise run the test body, classify its outcome
(re-raising a body failure after classification), then — in `finally`
blocks — drain the cleanups and run `_deferTearDown`.  Returns the trace,
the final value of `self._passed`, and the exception propagating out of the
coroutine, if any (a body failure is re-raised; an exception escaping the
drain replaces it during unwinding; `_deferTearDown` never raises). -/
def deferSetUp (t : TestSpec) : List Event × Bool × Option Exc :=
  match t.setUp with
  | Except.error (Exc.skipTest r) =>
    let c := deferRunCleanups t.cleanups
    (Event.ranSetUp :: Event.addSkip r :: c.1, false, c.2.2)
  | Except.error Exc.keyboardInterrupt =>
    let c := deferRunCleanups t.cleanups
    (Event.ranSetUp :: Event.addError Exc.keyboardInterrupt :: Event.stopCalled :: c.1,
      false, c.2.2)
  | Except.error e =>
    let c := deferRunCleanups t.cleanups
    (Event.ranSetUp :: Event.addError e :: c.1, false, c.2.2)
  | Except.ok _ =>
    let b := classifyBody t.todo t.body
    let c := deferRunCleanups t.cleanups
    let td := deferTearDown t.tearDown
    let bodyExc : Option Exc :=
      match t.body with
      | Except.ok _ => none
      | Except.error f => some f
    ((Event.ranSetUp :: Event.ranBody :: b.1) ++ c.1 ++ td.1,
      b.2 && !c.2.1 && !td.2,
      (c.2.2).orElse (fun _ => bodyExc))

/-- `TestCase._cleanUp`, restricted to its final step
`if self._passed: result.addSuccess(self)`.  The preceding
`util._Janitor(self, result).postCaseCleanup()` and the log-observer error
flush are external collaborators (`util._Janitor` and the observer are not
in `src/`); they are modelled here in their clean state (janitor reports
clean, no logged errors), in which they add no events and leave `_passed`
unchanged. -/
def cleanUp (passed : Bool) : List Event :=
  if passed then [Event.addSuccess] else []

/-- A full test execution as driven by `_runFixturesAndTest`: the
`_deferSetUp` coroutine followed by `_cleanUp`.  (The exception, if any,
propagating out of the coroutine errbacks the deferred handed to `_wait`,
which records and discards it; it produces no sink call.)  Returns the
complete event trace. -/
def runTest (t : TestSpec) : List Event :=
  let d := deferSetUp t
  d.1 ++ cleanUp d.2.1

/-- What the `onTimeout` closure of `TestCase._run` did when it fired:
whether `d.errback(f)` succeeded, whether `reactor.crash()` was called,
whether `self._timedOut` was set, and the calls it made on the result sink
directly. -/
structure OnTimeoutEffect where
  errbacked : Bool
  crashed : Bool
  timedOut : Bool
  sinkEvents : List Event
deriving Repr

/-- The `onTimeout` closure of `TestCase._run` (lines 97-117): build a
`defer.TimeoutError` failure `f` and try `d.errback(f)`.  If the deferred
is still pending the errback succeeds (and the failure then flows through
the phase's normal classification path).  If the errback raises
`defer.AlreadyCalledError` — the deferred already fired but its callback
chain is unfinished — instead crash the reactor, set `self._timedOut`, and
report `f` directly to the result sink: `addExpectedFailure` if
`self.getTodo()` exists and expects `f`, else `addError`.
`dAlreadyCalled` says whether the guarded deferred has already fired. -/
def onTimeout (dAlreadyCalled : Bool) (todo : Option (Exc → Bool)) : OnTimeoutEffect :=
  let f := Exc.timeoutError
  if dAlreadyCalled then
    { errbacked := false
      crashed := true
      timedOut := true
      sinkEvents :=
        if todoExpects todo f then [Event.addExpectedFailure f]
        else [Event.addError f] }
  else
    { errbacked := true, crashed := false, timedOut := false, sinkEvents := [] }

/-- The immediate result of `TestCase._run` (lines 122-132): the deferred it
returns (modelled by the outcome that awaiting it produces) and whether a
timeout call was scheduled via `reactor.callLater`. -/
structure RunEffect where
  outcome : Except Exc Unit
  timeoutScheduled : Bool
deriving Repr

/-- `TestCase._run`, lines 122-132: if `inspect.isgeneratorfunction(func)`
holds, return `defer.fail(TypeError(...))` at once — `reactor.callLater` is
never reached, so no timeout is armed.  Otherwise run `func` through
`defer.maybeDeferred` (awaiting the deferred yields `func`'s own outcome,
`funcOutcome` here) and schedule the timeout call. -/
def run (isGeneratorFunction : Bool) (funcOutcome : Except Exc Unit) : RunEffect :=
  if isGeneratorFunction then
    { outcome := Except.error Exc.typeError, timeoutScheduled := false }
  else
    { outcome := funcOutcome, timeoutScheduled := true }

/-- The resolved `timeout` attribute as `util.acquireAttribute` hands it to
`float()` in `TestCase.getTimeout`: a number (int or float, value as a
rational), a string `float()` accepts (such as `"5"`, value as a rational),
a string `float()` rejects with `ValueError` (such as `"orange"`), or a
non-numeric object — such as a method — that `float()` rejects with
`TypeError`.  `absent` means no scope defines `timeout`, in which case
`util.acquireAttribute` returns the default
`util.DEFAULT_TIMEOUT_DURATION`. -/
inductive TimeoutAttr where
  | num (q : ℚ)
  | numStr (q : ℚ)
  | badStr (s : String)
  | nonNumeric
  | absent
deriving DecidableEq, Repr

/-- Python's `float()` on a resolved timeout attribute: `some` of the
numeric value when the conversion succeeds, `none` when it raises
`ValueError` or `TypeError`. -/
def floatConv : TimeoutAttr → Option ℚ
  | TimeoutAttr.num q => some q
  | TimeoutAttr.numStr q => some q
  | _ => none

/-- `TestCase.getTimeout`: resolve the `timeout` attribute through
`self._parents` with `util.DEFAULT_TIMEOUT_DURATION` as fallback
(`util.acquireAttribute` is not in `src/`; modelled from the spec:
resolution is first-present-wins with the default constant, here the
parameter `default`, a number, when every scope lacks the attribute), then
return `float(timeout)`; if `float()` raises `ValueError` or `TypeError`,
warn and return the default.  Returns the value and whether the warning was
issued. -/
def getTimeout (attr : TimeoutAttr) (default : ℚ) : ℚ × Bool :=
  let timeout := match attr with
    | TimeoutAttr.absent => TimeoutAttr.num default
    | a => a
  match floatConv timeout with
  | some q => (q, false)
  | none => (default, true)

/-- How a call to `TestCase._wait` ended: raising the
`RuntimeError("_wait is not reentrant")` guard, returning normally, or
raising `KeyboardInterrupt`. -/
inductive WaitOutcome where
  | reentrantError
  | returned
  | interrupted
deriving DecidableEq, Repr

/-- `TestCase._wait`: `running` is the length of the module-level
`_wait_is_running` list.  If it is non-empty, raise
`RuntimeError("_wait is not reentrant")` before touching the guard.
Otherwise append to the guard and enter the `try` block: if the deferred
already fired, `append` ran synchronously and `_wait` returns at once;
otherwise the reactor is run, and on exit `_wait` returns if a result was
recorded or `self._timedOut` is set, else raises `KeyboardInterrupt`.  The
`finally` block pops the guard on every one of these exit paths.  Returns
the outcome and the final guard length.  (`dFired`: the deferred had
already fired; `loopDelivered`: running the reactor fired the deferred
before the loop stopped; `timedOut`: `self._timedOut`.) -/
def wait (running : Nat) (dFired loopDelivered timedOut : Bool) :
    WaitOutcome × Nat :=
  if 0 < running then
    (WaitOutcome.reentrantError, running)
  else
    let running1 := running + 1
    let out :=
      if dFired then WaitOutcome.returned
      else if loopDelivered || timedOut then WaitOutcome.returned
      else WaitOutcome.interrupted
    (out, running1 - 1)

/-- A Python value as seen by the truthiness-driven `and` / `or` operators:
`none` is `None` (falsy), `bool b` a boolean, and `obj i truthy` any other
object `i` with the given truthiness. -/
inductive PyVal where
  | none
  | bool (b : Bool)
  | obj (i : Nat) (truthy : Bool)
deriving DecidableEq, Repr

/-- Python truthiness of a `PyVal`. -/
def pyTruthy : PyVal → Bool
  | PyVal.none => false
  | PyVal.bool b => b
  | PyVal.obj _ t => t

/-- Python `a and b`: `b` if `a` is truthy, else `a`. -/
def pyAnd (a b : PyVal) : PyVal :=
  if pyTruthy a then b else a

/-- Python `a or b`: `a` if `a` is truthy, else `b`. -/
def pyOr (a b : PyVal) : PyVal :=
  if pyTruthy a then a else b

/-- The continuation `lambda x: call.active() and call.cancel() or x`
attached with `d.addBoth` in `TestCase._run` (line 131).  `call.active()`
is a boolean; `call.cancel()` returns `None` (the reactor's `DelayedCall`
is external to `src/`; per its interface `cancel` has no return value, i.e.
returns `None`).  `x` is whatever outcome the deferred carries. -/
def cancelContinuation (active : Bool) (x : PyVal) : PyVal :=
  pyOr (pyAnd (PyVal.bool active) PyVal.none) x

/-- The classification of the test body's outcome as the claim words it, in
its stated priority order: no failure with a todo annotation present
reports `unexpectedSuccess`; no failure and no todo marks the test passed;
a failure the todo predicate expects reports `expectedFailure`; an
assertion-style failure reports `failed`; `KeyboardInterrupt` reports an
error and stops the run; a skip signal reports `skipped`; any other failure
reports an error. -/
def classifyBodySpec (todo : Option (Exc → Bool)) (body : Except Exc Unit) :
    List Event × Bool :=
  match body with
  | Except.ok _ =>
    if todo.isSome then ([Event.addUnexpectedSuccess], false) else ([], true)
  | Except.error f =>
    if todoExpects todo f then ([Event.addExpectedFailure f], false)
    else if f = Exc.failTest then ([Event.addFailure f], false)
    else if f = Exc.keyboardInterrupt then
      ([Event.addError f, Event.stopCalled], false)
    else
      match f with
      | Exc.skipTest r => ([Event.addSkip r], false)
      | _ => ([Event.addError f], false)

/-- The number of primary classifications `classifyBody` applied: one per
classification sink event, plus one if the test was marked passed. -/
def primaryCount (r : List Event × Bool) : Nat :=
  (r.1.countP (fun e =>
    match e with
    | Event.addUnexpectedSuccess => true
    | Event.addExpectedFailure _ => true
    | Event.addFailure _ => true
    | Event.addError _ => true
    | Event.addSkip _ => true
    | _ => false)) + (if r.2 then 1 else 0)

/-! ## Helper lemmas -/

/-- When every popped cleanup is catchable, the drain loop runs the whole
list in order, collecting exactly the raised failures, and nothing
propagates. -/
theorem drainGo_of_catchable (cs : List Cleanup)
    (h : ∀ c ∈ cs, c.catchable = true) :
    drainGo cs = (cs.map (fun c => Event.ranCleanup c.id),
                  cs.filterMap Cleanup.failure, none) := by
  induction cs with
  | nil => rfl
  | cons c rest ih =>
    have hc := h c (List.mem_cons_self c rest)
    have hrest : ∀ x ∈ rest, x.catchable = true :=
      fun x hx => h x (List.mem_cons_of_mem c hx)
    cases hco : c.outcome with
    | ok u =>
      simp [drainGo, hco, ih hrest, Cleanup.failure]
    | error e =>
      have he : e.isException = true := by
        simpa [Cleanup.catchable, hco] using hc
      simp [drainGo, hco, he, ih hrest, Cleanup.failure]

/-- Every event produced by the drain loop is a `ranCleanup` marker. -/
theorem drainGo_events_ranCleanup (cs : List Cleanup) :
    ∀ e ∈ (drainGo cs).1, e.isRanCleanup = true := by
  induction cs with
  | nil => intro e he; simp [drainGo] at he
  | cons c rest ih =>
    intro e he
    cases hco : c.outcome with
    | ok u =>
      simp only [drainGo, hco] at he
      rcases List.mem_cons.mp he with h1 | h2
      · subst h1; rfl
      · exact ih e h2
    | error ex =>
      simp only [drainGo, hco] at he
      by_cases hx : ex.isException = true
      · simp only [hx, if_true] at he
        rcases List.mem_cons.mp he with h1 | h2
        · subst h1; rfl
        · exact ih e h2
      · simp only [hx, if_false] at he
        simp at he
        subst he; rfl

/-- Every event produced by `_deferRunCleanups` is the `drainStarted`
marker, a `ranCleanup` marker, or an `addError` call. -/
theorem deferRunCleanups_events (cs : List Cleanup) :
    ∀ e ∈ (deferRunCleanups cs).1,
      e = Event.drainStarted ∨ e.isRanCleanup = true ∨ e.isAddError = true := by
  intro e he
  unfold deferRunCleanups at he
  cases hp : (drainGo cs.reverse).2.2 with
  | some ex =>
    simp only [hp] at he
    rcases List.mem_cons.mp he with h1 | h2
    · exact Or.inl h1
    · exact Or.inr (Or.inl (drainGo_events_ranCleanup cs.reverse e h2))
  | none =>
    simp only [hp] at he
    rcases List.mem_cons.mp he with h1 | h2
    · exact Or.inl h1
    · rcases List.mem_append.mp h2 with h3 | h4
      · exact Or.inr (Or.inl (drainGo_events_ranCleanup cs.reverse e h3))
      · rcases List.mem_map.mp h4 with ⟨f, _, hf⟩
        subst hf
        exact Or.inr (Or.inr rfl)

/-- `_deferRunCleanups` emits exactly one `drainStarted` marker. -/
theorem deferRunCleanups_count_drainStarted (cs : List Cleanup) :
    (deferRunCleanups cs).1.count Event.drainStarted = 1 := by
  unfold deferRunCleanups
  cases hp : (drainGo cs.reverse).2.2 with
  | some ex =>
    simp only [hp, List.count_cons_self]
    have : (drainGo cs.reverse).1.count Event.drainStarted = 0 := by
      rw [List.count_eq_zero]
      intro hmem
      have := drainGo_events_ranCleanup cs.reverse Event.drainStarted hmem
      simp [Event.isRanCleanup] at this
    omega
  | none =>
    simp only [hp, List.count_cons_self]
    have h1 : (drainGo cs.reverse).1.count Event.drainStarted = 0 := by
      rw [List.count_eq_zero]
      intro hmem
      have := drainGo_events_ranCleanup cs.reverse Event.drainStarted hmem
      simp [Event.isRanCleanup] at this
    have h2 : ((drainGo cs.reverse).2.1.map Event.addError).count
        Event.drainStarted = 0 := by
      rw [List.count_eq_zero]
      intro hmem
      rcases List.mem_map.mp hmem with ⟨f, _, hf⟩
      exact Event.noConfusion hf
    rw [List.count_append]
    omega

/-- `_deferRunCleanups` never emits a `ranTearDown` marker. -/
theorem deferRunCleanups_no_ranTearDown (cs : List Cleanup) :
    Event.ranTearDown ∉ (deferRunCleanups cs).1 := by
  intro hmem
  rcases deferRunCleanups_events cs Event.ranTearDown hmem with h | h | h
  · exact Event.noConfusion h
  · simp [Event.isRanCleanup] at h
  · simp [Event.isAddError] at h

/-- Closed form of `_deferRunCleanups` when every cleanup is catchable:
the run markers appear in reverse-registration order, followed by one
`addError` per collected failure, in the order the failures were raised;
`_passed` is demoted exactly when some cleanup failed, and nothing
propagates. -/
theorem deferRunCleanups_of_catchable (cs : List Cleanup)
    (h : ∀ c ∈ cs, c.catchable = true) :
    deferRunCleanups cs =
      (Event.drainStarted ::
        (cs.reverse.map (fun c => Event.ranCleanup c.id)
          ++ (cs.reverse.filterMap Cleanup.failure).map Event.addError),
       !(cs.reverse.filterMap Cleanup.failure).isEmpty, none) := by
  have hrev : ∀ c ∈ cs.reverse, c.catchable = true :=
    fun c hc => h c (List.mem_reverse.mp hc)
  unfold deferRunCleanups
  rw [drainGo_of_catchable cs.reverse hrev]

/-- Every event emitted by `_ebDeferTestMethod` is a sink call on behalf of
the body's failure: never a phase marker, never `addSuccess`. -/
theorem ebDeferTestMethod_events (todo : Option (Exc → Bool)) (f : Exc) :
    ∀ e ∈ ebDeferTestMethod todo f,
      e ≠ Event.drainStarted ∧ e ≠ Event.ranTearDown ∧ e ≠ Event.addSuccess
        ∧ e.isRanCleanup = false ∧ e ≠ Event.ranBody := by
  intro e he
  unfold ebDeferTestMethod at he
  split at he
  · obtain rfl := List.mem_singleton.mp he
    exact ⟨by simp, by simp, by simp, rfl, by simp⟩
  · cases f with
    | failTest =>
      obtain rfl := List.mem_singleton.mp he
      exact ⟨by simp, by simp, by simp, rfl, by simp⟩
    | keyboardInterrupt =>
      rcases List.mem_cons.mp he with rfl | he2
      · exact ⟨by simp, by simp, by simp, rfl, by simp⟩
      · obtain rfl := List.mem_singleton.mp he2
        exact ⟨by simp, by simp, by simp, rfl, by simp⟩
    | skipTest r =>
      obtain rfl := List.mem_singleton.mp he
      exact ⟨by simp, by simp, by simp, rfl, by simp⟩
    | timeoutError =>
      obtain rfl := List.mem_singleton.mp he
      exact ⟨by simp, by simp, by simp, rfl, by simp⟩
    | typeError =>
      obtain rfl := List.mem_singleton.mp he
      exact ⟨by simp, by simp, by simp, rfl, by simp⟩
    | other m =>
      obtain rfl := List.mem_singleton.mp he
      exact ⟨by simp, by simp, by simp, rfl, by simp⟩

/-- Every event emitted by the body-outcome classification is a sink call:
never a phase marker, never `addSuccess`. -/
theorem classifyBody_events (todo : Option (Exc → Bool)) (body : Except Exc Unit) :
    ∀ e ∈ (classifyBody todo body).1,
      e ≠ Event.drainStarted ∧ e ≠ Event.ranTearDown ∧ e ≠ Event.addSuccess
        ∧ e.isRanCleanup = false ∧ e ≠ Event.ranBody := by
  intro e he
  cases body with
  | ok u =>
    cases todo with
    | some p =>
      obtain rfl := List.mem_singleton.mp (by simpa [classifyBody] using he)
      exact ⟨by simp, by simp, by simp, rfl, by simp⟩
    | none => simp [classifyBody] at he
  | error f =>
    exact ebDeferTestMethod_events todo f e (by simpa [classifyBody] using he)

/-- The classification of the body emits no `drainStarted` marker. -/
theorem classifyBody_count_drainStarted (todo : Option (Exc → Bool))
    (body : Except Exc Unit) :
    (classifyBody todo body).1.count Event.drainStarted = 0 := by
  rw [List.count_eq_zero]
  intro hmem
  exact (classifyBody_events todo body Event.drainStarted hmem).1 rfl

/-- The classification of the body emits no `ranTearDown` marker. -/
theorem classifyBody_count_ranTearDown (todo : Option (Exc → Bool))
    (body : Except Exc Unit) :
    (classifyBody todo body).1.count Event.ranTearDown = 0 := by
  rw [List.count_eq_zero]
  intro hmem
  exact (classifyBody_events todo body Event.ranTearDown hmem).2.1 rfl

/-- `_deferTearDown` runs `tearDown` exactly once. -/
theorem deferTearDown_count_ranTearDown (td : Except Exc Unit) :
    (deferTearDown td).1.count Event.ranTearDown = 1 := by
  cases td with
  | ok u => rfl
  | error e => cases e <;> simp [deferTearDown, List.count_cons]

/-- `_deferTearDown` emits no `drainStarted` marker. -/
theorem deferTearDown_count_drainStarted (td : Except Exc Unit) :
    (deferTearDown td).1.count Event.drainStarted = 0 := by
  cases td with
  | ok u => rfl
  | error e => cases e <;> simp [deferTearDown, List.count_cons]

/-- `_deferRunCleanups` emits no `ranTearDown` marker (count form). -/
theorem deferRunCleanups_count_ranTearDown (cs : List Cleanup) :
    (deferRunCleanups cs).1.count Event.ranTearDown = 0 :=
  List.count_eq_zero.mpr (deferRunCleanups_no_ranTearDown cs)

/-- `_cleanUp` emits no phase markers. -/
theorem cleanUp_count_markers (passed : Bool) :
    (cleanUp passed).count Event.drainStarted = 0
    ∧ (cleanUp passed).count Event.ranTearDown = 0 := by
  cases passed <;> exact ⟨rfl, rfl⟩

/-- `_deferTearDown` never calls `addSuccess`. -/
theorem deferTearDown_no_addSuccess (td : Except Exc Unit) :
    Event.addSuccess ∉ (deferTearDown td).1 := by
  cases td with
  | ok u => simp [deferTearDown]
  | error e => cases e <;> simp [deferTearDown]

/-! ## Claim theorems -/

/-- C1: for every cleanup stack of N registered actions (each either
returning or raising a failure of exception class — the spec's glossary
keeps the interrupt signal distinct from failures), draining it via
`_deferRunCleanups` runs the actions in strict last-registered-first order,
each exactly once (the run markers are exactly the reverse of the
registration order); a failure raised by one action does not prevent the
later ones from running, and every collected failure is reported to the
result sink via `addError` after the drain completes. -/
theorem deferRunCleanups_lifo_reports_all_failures (cs : List Cleanup)
    (h : ∀ c ∈ cs, c.catchable = true) :
    (deferRunCleanups cs).1 =
      Event.drainStarted ::
        (cs.reverse.map (fun c => Event.ranCleanup c.id)
          ++ (cs.reverse.filterMap Cleanup.failure).map Event.addError)
    ∧ (deferRunCleanups cs).2.2 = none := by
  rw [deferRunCleanups_of_catchable cs h]
  exact ⟨rfl, rfl⟩

/-- Witness for `deferRunCleanups_lifo_reports_all_failures`: a stack of
three cleanups, the middle one failing — all three run, newest first, and
the failure is reported after the drain. -/
theorem deferRunCleanups_lifo_reports_all_failures_witness :
    (deferRunCleanups
      [⟨0, Except.ok ()⟩, ⟨1, Except.error (Exc.other "boom")⟩,
       ⟨2, Except.ok ()⟩]).1 =
      Event.drainStarted ::
        ([Event.ranCleanup 2, Event.ranCleanup 1, Event.ranCleanup 0]
          ++ [Event.addError (Exc.other "boom")]) := by
  have := deferRunCleanups_lifo_reports_all_failures
    [⟨0, Except.ok ()⟩, ⟨1, Except.error (Exc.other "boom")⟩, ⟨2, Except.ok ()⟩]
    (by decide)
  exact this.1.trans (by simp [Cleanup.failure])

/-- When `setUp` succeeds, the trace of a full test run decomposes into the
setUp and body markers, the body classification, the cleanup drain, the
tearDown run, and the final `_cleanUp` success check. -/
theorem runTest_setUp_ok (t : TestSpec) (h : t.setUp = Except.ok ()) :
    runTest t =
      (Event.ranSetUp :: Event.ranBody :: (classifyBody t.todo t.body).1)
        ++ (deferRunCleanups t.cleanups).1 ++ (deferTearDown t.tearDown).1
        ++ cleanUp ((classifyBody t.todo t.body).2
            && (!(deferRunCleanups t.cleanups).2.1)
            && (!(deferTearDown t.tearDown).2)) := by
  unfold runTest deferSetUp
  rw [h]

/-- C2: for every test in which `setUp` completes successfully, the cleanup
drain and `tearDown` each run exactly once, regardless of the test body's
outcome (pass, assertion failure, skip signal, interrupt, timeout, or any
other error). -/
theorem setUp_ok_finalizers_once (t : TestSpec) (h : t.setUp = Except.ok ()) :
    (runTest t).count Event.drainStarted = 1
    ∧ (runTest t).count Event.ranTearDown = 1 := by
  rw [runTest_setUp_ok t h]
  refine ⟨?_, ?_⟩ <;>
    simp [List.count_append, List.count_cons, classifyBody_count_drainStarted,
      deferRunCleanups_count_drainStarted, deferTearDown_count_drainStarted,
      classifyBody_count_ranTearDown, deferRunCleanups_count_ranTearDown,
      deferTearDown_count_ranTearDown, (cleanUp_count_markers _).1,
      (cleanUp_count_markers _).2]

/-- Witness for `setUp_ok_finalizers_once`: a test whose body raises
`KeyboardInterrupt` still drains its cleanup stack once and runs
`tearDown` once. -/
theorem setUp_ok_finalizers_once_witness :
    (runTest { setUp := Except.ok (),
               body := Except.error Exc.keyboardInterrupt,
               tearDown := Except.ok (), cleanups := [⟨0, Except.ok ()⟩],
               todo := none }).count Event.drainStarted = 1
    ∧ (runTest { setUp := Except.ok (),
                 body := Except.error Exc.keyboardInterrupt,
                 tearDown := Except.ok (), cleanups := [⟨0, Except.ok ()⟩],
                 todo := none }).count Event.ranTearDown = 1 :=
  setUp_ok_finalizers_once _ rfl

/-- C3: when the timeout callback fires and its attempt to errback the
phase's deferred hits the AlreadyFired race (`defer.AlreadyCalledError`),
the guard crashes the driving reactor, sets the test's `_timedOut` flag,
and reports the timeout failure directly to the result sink — as an
expected failure when the todo predicate matches it, otherwise as an
error — bypassing the normal phase-classification path (the errback, the
normal path, did not happen). -/
theorem onTimeout_alreadyFired_crashes_and_reports
    (todo : Option (Exc → Bool)) :
    (onTimeout true todo).crashed = true
    ∧ (onTimeout true todo).timedOut = true
    ∧ (onTimeout true todo).errbacked = false
    ∧ (onTimeout true todo).sinkEvents =
        (if todoExpects todo Exc.timeoutError then
          [Event.addExpectedFailure Exc.timeoutError]
        else [Event.addError Exc.timeoutError]) :=
  ⟨rfl, rfl, rfl, rfl⟩

/-- C4: the test-body outcome is classified in the claimed priority order
(`classifyBodySpec` is that order verbatim: success with todo →
`unexpectedSuccess`; success without todo → passed; failure expected by
the todo → `expectedFailure`; assertion-style failure → `failed`;
`KeyboardInterrupt` → error plus stop; skip signal → skipped; anything
else → error), and exactly one classification is applied per test body. -/
theorem classifyBody_matches_priority_spec (todo : Option (Exc → Bool))
    (body : Except Exc Unit) :
    classifyBody todo body = classifyBodySpec todo body
    ∧ primaryCount (classifyBody todo body) = 1 := by
  constructor
  · cases body with
    | ok u => cases todo <;> rfl
    | error f =>
      cases ht : todoExpects todo f with
      | true => simp [classifyBody, classifyBodySpec, ebDeferTestMethod, ht]
      | false =>
        cases f <;>
          simp [classifyBody, classifyBodySpec, ebDeferTestMethod, ht]
  · cases body with
    | ok u => cases todo <;> rfl
    | error f =>
      cases ht : todoExpects todo f with
      | true =>
        simp [primaryCount, classifyBody, ebDeferTestMethod, ht,
          List.countP_cons]
      | false =>
        cases f <;>
          simp [primaryCount, classifyBody, ebDeferTestMethod, ht,
            List.countP_cons]

/-- C7: calling `_wait` while another wait is in flight fails immediately
with the `RuntimeError("_wait is not reentrant")` guard, leaving the outer
wait's re-entrancy guard (`_wait_is_running`) intact; a wait that was
admitted clears the guard on every exit path (early return, normal return
and `KeyboardInterrupt` alike), and never itself raises the reentrancy
error. -/
theorem wait_reentrancy_guard (running : Nat)
    (dFired loopDelivered timedOut : Bool) :
    (0 < running →
      wait running dFired loopDelivered timedOut
        = (WaitOutcome.reentrantError, running))
    ∧ (wait 0 dFired loopDelivered timedOut).1 ≠ WaitOutcome.reentrantError
    ∧ (wait 0 dFired loopDelivered timedOut).2 = 0 := by
  refine ⟨fun h => ?_, ?_, ?_⟩
  · unfold wait
    rw [if_pos h]
  · unfold wait
    cases dFired <;> cases loopDelivered <;> cases timedOut <;> decide
  · rfl

/-- Witness for `wait_reentrancy_guard`: a nested call with one wait in
flight fails and leaves the guard at depth one; an admitted wait on an
already-fired deferred exits with the guard back at zero. -/
theorem wait_reentrancy_guard_witness :
    wait 1 false false false = (WaitOutcome.reentrantError, 1)
    ∧ (wait 0 true false false).1 ≠ WaitOutcome.reentrantError
    ∧ (wait 0 true false false).2 = 0 :=
  ⟨(wait_reentrancy_guard 1 false false false).1 (by decide),
   (wait_reentrancy_guard 0 true false false).2.1,
   (wait_reentrancy_guard 0 true false false).2.2⟩

/-- C8: when the action handed to `_run` is a generator function, `_run`
fails immediately with the `TypeError` failure ("... is a generator
function and therefore will never run") and schedules no timeout call —
whatever the action would otherwise have produced. -/
theorem run_generator_invalid_shape (funcOutcome : Except Exc Unit) :
    run true funcOutcome =
      { outcome := Except.error Exc.typeError, timeoutScheduled := false } :=
  rfl

/-- C9: `getTimeout` returns the `float()` conversion of every resolved
timeout attribute that `float()` accepts — including a numeric string such
as `"5"` — rather than the default, without warning; only attributes that
`float()` rejects (`ValueError` or `TypeError`) produce the
warning-and-default fallback; an absent attribute resolves to the default
without warning. -/
theorem getTimeout_float_conversion (attr : TimeoutAttr) (default q : ℚ) :
    (floatConv attr = some q → getTimeout attr default = (q, false))
    ∧ (floatConv attr = none → attr ≠ TimeoutAttr.absent →
        getTimeout attr default = (default, true))
    ∧ getTimeout TimeoutAttr.absent default = (default, false)
    ∧ getTimeout (TimeoutAttr.numStr 5) default = (5, false) := by
  refine ⟨?_, ?_, rfl, rfl⟩
  · intro hq
    cases attr <;> simp_all [floatConv, getTimeout]
  · intro hn hne
    cases attr <;> simp_all [floatConv, getTimeout]

/-- Witness for `getTimeout_float_conversion`: the numeric string `"5"`
yields `5.0` without warning, and a non-numeric attribute (a method, say)
yields the default `120.0` with the warning. -/
theorem getTimeout_float_conversion_witness :
    getTimeout (TimeoutAttr.numStr 5) 120 = (5, false)
    ∧ getTimeout TimeoutAttr.nonNumeric 120 = (120, true) :=
  ⟨(getTimeout_float_conversion (TimeoutAttr.numStr 5) 120 5).1 rfl,
   (getTimeout_float_conversion TimeoutAttr.nonNumeric 120 5).2.1 rfl
     (by decide)⟩

/-- C10: the timeout-cancellation continuation
`lambda x: call.active() and call.cancel() or x` attached by `_run` is the
identity on the outcome: whether or not the scheduled call is still
active, it returns its input unchanged, so the deferred's final outcome
equals the outcome the phase itself produced. -/
theorem cancelContinuation_identity (active : Bool) (x : PyVal) :
    cancelContinuation active x = x := by
  cases active <;> rfl

/-- Counterexample to C5 as stated: a test whose `setUp` raises the skip
signal but which has one registered cleanup that fails when drained — the
sink receives one `addError` call (for the cleanup failure), not zero. -/
theorem setUp_skip_addError_counterexample :
    (runTest { setUp := Except.error (Exc.skipTest "no network"),
               body := Except.ok (), tearDown := Except.ok (),
               cleanups := [⟨0, Except.error (Exc.other "boom")⟩],
               todo := none }).countP Event.isAddError = 1 := by
  decide

/-- C5 (amended): for every test whose `setUp` raises a skip signal and
whose drained cleanups all succeed, the result sink receives exactly one
`addSkip` call and zero `addError` or `addFailure` calls, the test body
and `tearDown` never run, and every cleanup registered before the skip is
still drained (newest first).  (As stated the claim fails: a failing
drained cleanup is reported with `addError`, see
`setUp_skip_addError_counterexample`.) -/
theorem setUp_skip_reports_skip_and_drains (t : TestSpec) (r : String)
    (h : t.setUp = Except.error (Exc.skipTest r))
    (hc : ∀ c ∈ t.cleanups, c.outcome = Except.ok ()) :
    (runTest t).countP Event.isAddSkip = 1
    ∧ (runTest t).countP Event.isAddError = 0
    ∧ (runTest t).countP Event.isAddFailure = 0
    ∧ Event.ranBody ∉ runTest t
    ∧ Event.ranTearDown ∉ runTest t
    ∧ (runTest t).filter Event.isRanCleanup
        = t.cleanups.reverse.map (fun c => Event.ranCleanup c.id) := by
  have hcat : ∀ c ∈ t.cleanups, c.catchable = true := by
    intro c hmem
    simp [Cleanup.catchable, hc c hmem]
  have hfail : t.cleanups.reverse.filterMap Cleanup.failure = [] := by
    rw [List.filterMap_eq_nil_iff]
    intro c hmem
    simp [Cleanup.failure, hc c (List.mem_reverse.mp hmem)]
  have htrace : runTest t =
      Event.ranSetUp :: Event.addSkip r :: Event.drainStarted ::
        t.cleanups.reverse.map (fun c => Event.ranCleanup c.id) := by
    unfold runTest deferSetUp
    rw [h, deferRunCleanups_of_catchable t.cleanups hcat, hfail]
    simp [cleanUp]
  have hmark : ∀ p : Event → Bool, (∀ i : Nat, p (Event.ranCleanup i) = false) →
      (t.cleanups.reverse.map (fun c => Event.ranCleanup c.id)).countP p = 0 := by
    intro p hp
    rw [List.countP_eq_zero]
    intro e he
    rcases List.mem_map.mp he with ⟨c, _, rfl⟩
    simp [hp c.id]
  rw [htrace]
  refine ⟨?_, ?_, ?_, ?_, ?_, ?_⟩
  · simp [List.countP_cons, hmark Event.isAddSkip (fun i => rfl),
      Event.isAddSkip]
  · simp [List.countP_cons, hmark Event.isAddError (fun i => rfl),
      Event.isAddError]
  · simp [List.countP_cons, hmark Event.isAddFailure (fun i => rfl),
      Event.isAddFailure]
  · intro hmem
    rcases List.mem_cons.mp hmem with hx | hmem; · exact Event.noConfusion hx
    rcases List.mem_cons.mp hmem with hx | hmem; · exact Event.noConfusion hx
    rcases List.mem_cons.mp hmem with hx | hmem; · exact Event.noConfusion hx
    rcases List.mem_map.mp hmem with ⟨c, _, hx⟩
    exact Event.noConfusion hx
  · intro hmem
    rcases List.mem_cons.mp hmem with hx | hmem; · exact Event.noConfusion hx
    rcases List.mem_cons.mp hmem with hx | hmem; · exact Event.noConfusion hx
    rcases List.mem_cons.mp hmem with hx | hmem; · exact Event.noConfusion hx
    rcases List.mem_map.mp hmem with ⟨c, _, hx⟩
    exact Event.noConfusion hx
  · have hself : (t.cleanups.reverse.map
        (fun c => Event.ranCleanup c.id)).filter Event.isRanCleanup
        = t.cleanups.reverse.map (fun c => Event.ranCleanup c.id) := by
      rw [List.filter_eq_self]
      intro e he
      rcases List.mem_map.mp he with ⟨c, _, rfl⟩
      rfl
    simp [List.filter_cons, Event.isRanCleanup, hself]

/-- Witness for `setUp_skip_reports_skip_and_drains`: setUp skips with
"no network" and the two registered cleanups (which succeed) still
drain. -/
theorem setUp_skip_reports_skip_and_drains_witness :
    (runTest { setUp := Except.error (Exc.skipTest "no network"),
               body := Except.ok (), tearDown := Except.ok (),
               cleanups := [⟨0, Except.ok ()⟩, ⟨1, Except.ok ()⟩],
               todo := none }).countP Event.isAddSkip = 1
    ∧ (runTest { setUp := Except.error (Exc.skipTest "no network"),
                 body := Except.ok (), tearDown := Except.ok (),
                 cleanups := [⟨0, Except.ok ()⟩, ⟨1, Except.ok ()⟩],
                 todo := none }).countP Event.isAddError = 0 := by
  have := setUp_skip_reports_skip_and_drains
    { setUp := Except.error (Exc.skipTest "no network"),
      body := Except.ok (), tearDown := Except.ok (),
      cleanups := [⟨0, Except.ok ()⟩, ⟨1, Except.ok ()⟩],
      todo := none } "no network" rfl (by simp)
  exact ⟨this.1, this.2.1⟩

/-- C6: for every test whose body completes successfully but where at
least one (catchable) cleanup action fails, the result sink receives
`addError` for each cleanup failure and never receives `addSuccess`: a
cleanup failure demotes the final outcome even though the body passed. -/
theorem cleanup_failure_demotes (t : TestSpec)
    (hs : t.setUp = Except.ok ()) (hb : t.body = Except.ok ())
    (hcat : ∀ c ∈ t.cleanups, c.catchable = true)
    (hf : ∃ c ∈ t.cleanups, c.failure.isSome) :
    (∀ c ∈ t.cleanups, ∀ e, c.failure = some e →
      Event.addError e ∈ runTest t)
    ∧ Event.addSuccess ∉ runTest t := by
  have hdrain := deferRunCleanups_of_catchable t.cleanups hcat
  have htrace := runTest_setUp_ok t hs
  have hemp : (t.cleanups.reverse.filterMap Cleanup.failure).isEmpty = false := by
    rcases hf with ⟨c, hmem, hsome⟩
    obtain ⟨e, he⟩ := Option.isSome_iff_exists.mp hsome
    have hin : e ∈ t.cleanups.reverse.filterMap Cleanup.failure :=
      List.mem_filterMap.mpr ⟨c, List.mem_reverse.mpr hmem, he⟩
    cases hx : (t.cleanups.reverse.filterMap Cleanup.failure).isEmpty with
    | false => rfl
    | true =>
      rw [List.isEmpty_iff] at hx
      rw [hx] at hin
      exact absurd hin (List.not_mem_nil e)
  have h21 : (deferRunCleanups t.cleanups).2.1 = true := by
    rw [hdrain]
    show (!(t.cleanups.reverse.filterMap Cleanup.failure).isEmpty) = true
    rw [hemp]
    rfl
  have hpassed : ((classifyBody t.todo t.body).2
      && (!(deferRunCleanups t.cleanups).2.1)
      && (!(deferTearDown t.tearDown).2)) = false := by
    rw [h21]
    simp
  constructor
  · intro c hmem e he
    rw [htrace]
    have h1 : Event.addError e ∈ (deferRunCleanups t.cleanups).1 := by
      rw [hdrain]
      simp only [List.mem_cons, List.mem_append]
      right; right
      exact List.mem_map.mpr
        ⟨e, List.mem_filterMap.mpr ⟨c, List.mem_reverse.mpr hmem, he⟩, rfl⟩
    simp only [List.mem_append]
    exact Or.inl (Or.inl (Or.inr h1))
  · have hcl : cleanUp false = [] := rfl
    rw [htrace, hpassed, hcl]
    simp only [List.mem_append, List.mem_cons, List.not_mem_nil, or_false,
      List.append_nil]
    rintro (((h1 | h2 | h3) | h4) | h5)
    · exact Event.noConfusion h1
    · exact Event.noConfusion h2
    · exact (classifyBody_events t.todo t.body _ h3).2.2.1 rfl
    · rcases deferRunCleanups_events t.cleanups _ h4 with h | h | h
      · exact Event.noConfusion h
      · simp [Event.isRanCleanup] at h
      · simp [Event.isAddError] at h
    · exact deferTearDown_no_addSuccess t.tearDown h5

/-- Witness for `cleanup_failure_demotes`: the body passes but the single
cleanup raises `RuntimeError("boom")` — the sink gets `addError` for it
and no `addSuccess`. -/
theorem cleanup_failure_demotes_witness :
    Event.addError (Exc.other "boom") ∈
      runTest { setUp := Except.ok (), body := Except.ok (),
                tearDown := Except.ok (),
                cleanups := [⟨0, Except.error (Exc.other "boom")⟩],
                todo := none }
    ∧ Event.addSuccess ∉
      runTest { setUp := Except.ok (), body := Except.ok (),
                tearDown := Except.ok (),
                cleanups := [⟨0, Except.error (Exc.other "boom")⟩],
                todo := none } := by
  have := cleanup_failure_demotes
    { setUp := Except.ok (), body := Except.ok (), tearDown := Except.ok (),
      cleanups := [⟨0, Except.error (Exc.other "boom")⟩], todo := none }
    rfl rfl (by decide)
    ⟨⟨0, Except.error (Exc.other "boom")⟩, List.mem_singleton_self _, rfl⟩
  exact ⟨this.1 ⟨0, Except.error (Exc.other "boom")⟩
    (List.mem_singleton_self _) (Exc.other "boom") rfl, this.2⟩

end TrialAsync
